import Mathlib

/-!
Verification of the TSC-Workshop registration and payment lifecycle.

This file gives a shallow embedding of the lifecycle core of the
workshop-registration application (the `workshops` Django app): the
`Workshop` / `Registration` / `Payment` data model from
`workshops/models.py`, the gateway callback handlers and payment
confirmation view from `workshops/views.py`, the amount-verification
helper and initiation result handling from
`workshops/payment_gateway.py`, and the administrative bulk override
from `workshops/admin.py`.  Machine decimals (`decimal.Decimal`) are
modelled as rationals produced by an explicit decimal-numeral parser;
database rows are lists of records; the ambient clock, the generated
date string and the uuid draw are passed in explicitly as an `Env`.
-/

namespace TSCWorkshop

/-! ## Characters and digits -/

/-- A decimal digit character, `0`-`9`. -/
def isDigitChar (c : Char) : Bool := '0' ≤ c && c ≤ '9'

/-- An uppercase hexadecimal character, `0`-`9` or `A`-`F` (the
character class of the registration-number suffix produced by
`uuid.uuid4().hex[:5].upper()`). -/
def isHexUpperChar (c : Char) : Bool := isDigitChar c || ('A' ≤ c && c ≤ 'F')

/-- Numeric value of a digit character. -/
def digitVal (c : Char) : Nat := c.toNat - 48

/-- The digit character for a value below ten (`chr(48 + d)`). -/
def decChar (d : Nat) : Char := Char.ofNat (48 + d)

/-- The uppercase hexadecimal character for a value below sixteen. -/
def hexChar (d : Nat) : Char :=
  if d < 10 then decChar d else Char.ofNat (65 + (d - 10))

/-- Value of a digit string read most-significant-first. -/
def digitsVal (cs : List Char) : Nat :=
  cs.foldl (fun a c => 10 * a + digitVal c) 0

/-- Digit-list worker with an explicit fuel bound (any fuel above the
argument yields the digit list; structural recursion keeps the
definition kernel-reducible). -/
def natToDigitsAux : Nat → Nat → List Char
  | 0, _ => []
  | fuel + 1, n =>
    if n < 10 then [decChar n]
    else natToDigitsAux fuel (n / 10) ++ [decChar (n % 10)]

/-- Decimal digit list of a natural number, most significant first,
as produced by `str` on a non-negative integer. -/
def natToDigits (n : Nat) : List Char := natToDigitsAux (n + 1) n

/-! ## A model of the Python `decimal.Decimal` constructor

`workshops/payment_gateway.py` compares amounts with
`Decimal(str(received)) == Decimal(str(expected))` inside a
`try`/`except` that turns any parse failure into `False`.  We model the
finite-numeral syntax accepted by the `Decimal` constructor: an
optional sign, an integer part and an optional fractional part (at
least one digit between them), and an optional exponent part; the
numeric value is returned as a rational.  Special values (`NaN`,
`Infinity`) and surrounding whitespace are outside the model; no claim
depends on them. -/

/-- The exponent digits: the whole remaining input must be one or more
digits. -/
def parseExpDigits (cs : List Char) : Option Int :=
  if cs.isEmpty then none
  else if cs.all isDigitChar then some (digitsVal cs) else none

/-- An optionally signed exponent body. -/
def parseSignedDigits (cs : List Char) : Option Int :=
  match cs with
  | [] => none
  | c :: r =>
    if c = '+' then parseExpDigits r
    else if c = '-' then Option.map Neg.neg (parseExpDigits r)
    else parseExpDigits (c :: r)

/-- The optional exponent part: empty input means exponent zero,
otherwise an `e`/`E` followed by a signed digit string; anything else
is a parse failure. -/
def parseExponent (cs : List Char) : Option Int :=
  match cs with
  | [] => some 0
  | c :: r => if c = 'e' ∨ c = 'E' then parseSignedDigits r else none

/-- Split an optional fractional part: a leading dot takes the
following digit run, anything else leaves the input untouched. -/
def splitFraction (rest : List Char) : List Char × List Char :=
  match rest with
  | c :: r =>
    if c = '.' then (r.takeWhile isDigitChar, r.dropWhile isDigitChar)
    else ([], rest)
  | [] => ([], [])

/-- The numeric value `digits * 10 ^ exp` as a rational. -/
def decValue (ds : List Char) (exp : Int) : ℚ :=
  if 0 ≤ exp then ((digitsVal ds * 10 ^ exp.toNat : Nat) : ℚ)
  else mkRat (digitsVal ds) (10 ^ (-exp).toNat)

/-- Assemble integer part, fractional part and exponent; fails when
the mantissa has no digit at all or the exponent is malformed. -/
def parseAfterSplit (ip : List Char) (fr : List Char × List Char) : Option ℚ :=
  match parseExponent fr.2 with
  | none => none
  | some e =>
    if ip.isEmpty && fr.1.isEmpty then none
    else some (decValue (ip ++ fr.1) (e - (fr.1.length : Int)))

/-- An unsigned decimal numeral. -/
def parseUnsigned (cs : List Char) : Option ℚ :=
  parseAfterSplit (cs.takeWhile isDigitChar)
    (splitFraction (cs.dropWhile isDigitChar))

/-- A `Decimal` value as the constructor can produce it: a finite
number, a signed infinity, or a NaN (quiet or signaling; the sign and
diagnostic digits of a NaN play no role in equality and are not
tracked). -/
inductive PyDecimal where
  | finite (q : ℚ)
  | infinity (neg : Bool)
  | nan (signaling : Bool)
deriving Repr, DecidableEq

/-- An ASCII whitespace character, as stripped by `str.strip()` (the
exotic Unicode whitespace `strip` also removes is outside the model;
no claim depends on it). -/
def isSpaceChar (c : Char) : Bool :=
  c = ' ' || c = Char.ofNat 9 || c = Char.ofNat 10 || c = Char.ofNat 13
    || c = Char.ofNat 11 || c = Char.ofNat 12

/-- Lowercasing of an ASCII letter (the `Decimal` grammar is
case-insensitive). -/
def charLower (c : Char) : Char :=
  if 'A' ≤ c && c ≤ 'Z' then Char.ofNat (c.toNat + 32) else c

/-- Removal of leading and trailing whitespace, as `str.strip()`. -/
def stripChars (l : List Char) : List Char :=
  ((l.dropWhile isSpaceChar).reverse.dropWhile isSpaceChar).reverse

/-- The preprocessing the `Decimal` constructor applies to its string
argument before matching the numeric grammar:
`value.strip().replace("_", "")` — leading and trailing whitespace is
stripped and all underscores are removed (as documented: underscores
throughout are removed). -/
def preprocessDecInput (s : String) : List Char :=
  (stripChars s.toList).filter (fun c => c != '_')

/-- The `NaN` alternative of the grammar (already lowercased): the
word `nan` followed by optional diagnostic digits. -/
def isNanBody (ls : List Char) : Bool :=
  match ls with
  | 'n' :: 'a' :: 'n' :: ds => ds.all isDigitChar
  | _ => false

/-- The `sNaN` alternative (already lowercased). -/
def isSNanBody (ls : List Char) : Bool :=
  match ls with
  | 's' :: rest => isNanBody rest
  | _ => false

/-- The sign-free body of the grammar: a finite numeral, or `Inf` /
`Infinity`, or `NaN` / `sNaN` (case-insensitive).  The alternatives
accept disjoint inputs (a numeral starts with a digit or a dot), so
trying the numeral first is equivalent to the regex alternation. -/
def parseBody (neg : Bool) (body : List Char) : Option PyDecimal :=
  match parseUnsigned body with
  | some q => some (PyDecimal.finite (if neg then -q else q))
  | none =>
    let ls := body.map charLower
    if ls = ['i', 'n', 'f'] ∨ ls = ['i', 'n', 'f', 'i', 'n', 'i', 't', 'y']
    then some (PyDecimal.infinity neg)
    else if isNanBody ls then some (PyDecimal.nan false)
    else if isSNanBody ls then some (PyDecimal.nan true)
    else none

/-- Model of `decimal.Decimal(s)`: strip whitespace and underscores,
then an optional sign followed by a finite numeral, an infinity or a
NaN; anything else raises (modelled as `none`). -/
def parseDecString (s : String) : Option PyDecimal :=
  match preprocessDecInput s with
  | [] => none
  | c :: rest =>
    if c = '+' then parseBody false rest
    else if c = '-' then parseBody true rest
    else parseBody false (c :: rest)

/-- Equality of two parsed `Decimal` values as the `==` in
`verify_payment_amount` observes it: finite values compare
numerically, infinities compare by sign, and any comparison involving
a NaN yields `False` (a quiet NaN compares unequal; a signaling NaN
raises `InvalidOperation`, which the bare `except` of
`verify_payment_amount` also turns into `False`). -/
def pyDecEq : PyDecimal → PyDecimal → Bool
  | PyDecimal.finite a, PyDecimal.finite b => a == b
  | PyDecimal.infinity s1, PyDecimal.infinity s2 => s1 == s2
  | _, _ => false

/-- Embedding of `SSLCommerzPayment.verify_payment_amount`
(`workshops/payment_gateway.py` lines 175-191): both arguments are
converted via `Decimal(str(x))` and compared with `==`; any exception
during conversion or comparison yields `False`. -/
def verify_payment_amount (received_amount expected_amount : String) : Bool :=
  match parseDecString received_amount, parseDecString expected_amount with
  | some received, some expected => pyDecEq received expected
  | _, _ => false

/-! ## Rendering fees and generated identifiers

`Workshop.fee` is a Django `DecimalField` with two decimal places; we
carry it as `fee100`, the fee in hundredths.  `str(fee)` on such a
value prints the integer part followed by exactly two fraction
digits. -/

/-- Two zero-padded decimal digits of a value below one hundred. -/
def pad2 (n : Nat) : List Char := [decChar (n / 10), decChar (n % 10)]

/-- Four zero-padded decimal digits of a value below ten thousand
(the `%Y` field of `strftime`). -/
def pad4 (n : Nat) : List Char :=
  [decChar (n / 1000), decChar (n / 100 % 10), decChar (n / 10 % 10),
   decChar (n % 10)]

/-- Rendering by `str` of a two-decimal-place `Decimal` fee held as hundredths. -/
def feeToString (fee100 : Nat) : String :=
  ⟨natToDigits (fee100 / 100) ++ '.' :: pad2 (fee100 % 100)⟩

/-- Rendering of `datetime.now().strftime` with format `%Y%m%d` for a given calendar date. -/
def formatDateYMD (y m d : Nat) : String := ⟨pad4 y ++ pad2 m ++ pad2 d⟩

/-- Model of `str(uuid.uuid4().hex[:5]).upper()`: the five most significant
hexadecimal digits of the uuid draw, uppercased.  `n` is the value of
those five nibbles. -/
def uuidHex5 (n : Nat) : String :=
  ⟨[hexChar (n / 65536 % 16), hexChar (n / 4096 % 16),
    hexChar (n / 256 % 16), hexChar (n / 16 % 16), hexChar (n % 16)]⟩

/-- Full-string match of the registration-number pattern
`REG-\d{8}-[0-9A-F]{5}`. -/
def matchesRegNumberFormat (s : String) : Bool :=
  match s.toList with
  | 'R' :: 'E' :: 'G' :: '-' ::
      d1 :: d2 :: d3 :: d4 :: d5 :: d6 :: d7 :: d8 :: '-' ::
      h1 :: h2 :: h3 :: h4 :: h5 :: [] =>
    [d1, d2, d3, d4, d5, d6, d7, d8].all isDigitChar &&
      [h1, h2, h3, h4, h5].all isHexUpperChar
  | _ => false

/-! ## Data model

Rows of the three tables the lifecycle touches (`workshops/models.py`).
`fee100` and `amount100` carry two-decimal-place `DecimalField` values
in hundredths; statuses are the literal strings the code stores. -/

/-- A `Workshop` row (`workshops/models.py` lines 8-67). -/
structure Workshop where
  id : Nat
  fee100 : Nat
  capacity : Nat
  is_active : Bool
deriving Repr, DecidableEq

/-- A `Registration` row (`workshops/models.py` lines 87-187). -/
structure Registration where
  id : Nat
  workshopId : Nat
  registration_number : String
  email : String
  payment_status : String
deriving Repr, DecidableEq

/-- A `Payment` row (`workshops/models.py` lines 190-260). -/
structure Payment where
  registrationId : Nat
  transaction_id : String
  amount100 : Nat
  payment_status : String
  completed_at : Option Nat
deriving Repr, DecidableEq

/-- The relational store plus the log of payment-confirmation emails
sent by `send_payment_confirmation_email` (one entry per send, holding
the registration number). -/
structure DB where
  workshops : List Workshop
  registrations : List Registration
  payments : List Payment
  paymentEmails : List String
deriving Repr, DecidableEq

/-- The ambient effects a transition consumes: the clock value used
for `completed_at`, and the `strftime` date string and uuid draw used
when `Registration.save` generates a registration number. -/
structure Env where
  now : Nat
  dateStr : String
  uid : String
deriving Repr, DecidableEq

/-! ## Row lookups and updates -/

/-- Lookup `Payment.objects.get(transaction_id=...)` as a list search. -/
def findPayment (db : DB) (tranId : String) : Option Payment :=
  db.payments.find? (fun p => p.transaction_id == tranId)

/-- Lookup `Registration.objects.get(id=...)` as a list search. -/
def findRegistration (db : DB) (rid : Nat) : Option Registration :=
  db.registrations.find? (fun r => r.id == rid)

/-- Lookup `Workshop.objects.get(id=...)` as a list search. -/
def findWorkshop (db : DB) (wid : Nat) : Option Workshop :=
  db.workshops.find? (fun w => w.id == wid)

/-- Persist a payment row keyed by its transaction id. -/
def setPayment (db : DB) (p : Payment) : DB :=
  let ps := db.payments.map
    (fun q => if q.transaction_id == p.transaction_id then p else q)
  { db with payments := ps }

/-- Persist a registration row keyed by its id. -/
def setRegistration (db : DB) (r : Registration) : DB :=
  let rs := db.registrations.map (fun q => if q.id == r.id then r else q)
  { db with registrations := rs }

/-- Record one payment-confirmation email send. -/
def appendEmail (db : DB) (s : String) : DB :=
  { db with paymentEmails := db.paymentEmails ++ [s] }

/-! ## Registration.save and the Payment transition methods -/

/-- Embedding of `Registration.save` (`workshops/models.py` lines
159-171): generate `REG-<date>-<uid>` when the registration number is
still empty, then force `payment_status` to `free` whenever the
workshop fee is zero. -/
def registrationSave (w : Workshop) (dateStr uid : String)
    (r : Registration) : Registration :=
  let r1 := if r.registration_number = "" then
      { r with registration_number := "REG-" ++ dateStr ++ "-" ++ uid }
    else r
  if w.fee100 = 0 then { r1 with payment_status := "free" } else r1

/-- Embedding of `Payment.mark_completed` (`workshops/models.py` lines
247-253): set the payment to `completed` with `completed_at = now`,
mirror `completed` onto the registration and run its `save`. -/
def markCompleted (env : Env) (w : Workshop) (p : Payment)
    (r : Registration) : Payment × Registration :=
  ({ p with payment_status := "completed", completed_at := some env.now },
   registrationSave w env.dateStr env.uid
     { r with payment_status := "completed" })

/-- Embedding of `Payment.mark_failed` (`workshops/models.py` lines
255-260): set the payment to `failed` (leaving `completed_at` as it
is), mirror `failed` onto the registration and run its `save`. -/
def markFailed (env : Env) (w : Workshop) (p : Payment)
    (r : Registration) : Payment × Registration :=
  ({ p with payment_status := "failed" },
   registrationSave w env.dateStr env.uid
     { r with payment_status := "failed" })

/-! ## Callback handlers (`workshops/views.py`) -/

/-- The observable outcome of a callback handler: the message or
redirect the view produces. -/
inductive CbOutcome
  | successConfirmed (regNum : String)
  | amountMismatch
  | validationFailed
  | failedAck
  | cancelledAck
  | paymentNotFound
  | processingError
deriving Repr, DecidableEq

/-- Embedding of the `payment_success` view (`workshops/views.py`
lines 119-168).  The gateway validation call is an outbound HTTP
request; its verdict enters as `valOk` (the `success` field of
`validate_payment`).  On a found payment: a successful validation with
a matching amount runs `mark_completed` and sends the confirmation
email; a mismatch or failed validation runs `mark_failed`; a missing
payment row leaves the store untouched.  The `except` clauses make
every branch return normally. -/
def paymentSuccessHandler (env : Env) (valOk : Bool) (db : DB)
    (tranId amountStr : String) : DB × CbOutcome :=
  match findPayment db tranId with
  | none => (db, .paymentNotFound)
  | some p =>
    match findRegistration db p.registrationId with
    | none => (db, .processingError)
    | some r =>
      match findWorkshop db r.workshopId with
      | none => (db, .processingError)
      | some w =>
        if valOk then
          if verify_payment_amount amountStr (feeToString w.fee100) then
            let pr := markCompleted env w p r
            (appendEmail (setRegistration (setPayment db pr.1) pr.2)
               pr.2.registration_number,
             .successConfirmed pr.2.registration_number)
          else
            let pr := markFailed env w p r
            (setRegistration (setPayment db pr.1) pr.2, .amountMismatch)
        else
          let pr := markFailed env w p r
          (setRegistration (setPayment db pr.1) pr.2, .validationFailed)

/-- Embedding of the `payment_fail` view (`workshops/views.py` lines
171-185): a found payment is run through `mark_failed`; a missing one
leaves the store untouched. -/
def paymentFailHandler (env : Env) (db : DB) (tranId : String) :
    DB × CbOutcome :=
  match findPayment db tranId with
  | none => (db, .paymentNotFound)
  | some p =>
    match findRegistration db p.registrationId with
    | none => (db, .processingError)
    | some r =>
      match findWorkshop db r.workshopId with
      | none => (db, .processingError)
      | some w =>
        let pr := markFailed env w p r
        (setRegistration (setPayment db pr.1) pr.2, .failedAck)

/-- Embedding of the `payment_cancel` view (`workshops/views.py` lines
188-205): sets `cancelled` on the payment and on the registration
(persisted through `Registration.save`); a missing payment leaves the
store untouched. -/
def paymentCancelHandler (env : Env) (db : DB) (tranId : String) :
    DB × CbOutcome :=
  match findPayment db tranId with
  | none => (db, .paymentNotFound)
  | some p =>
    match findRegistration db p.registrationId with
    | none => (db, .processingError)
    | some r =>
      match findWorkshop db r.workshopId with
      | none => (db, .processingError)
      | some w =>
        let p2 := { p with payment_status := "cancelled" }
        let r2 := registrationSave w env.dateStr env.uid
          { r with payment_status := "cancelled" }
        (setRegistration (setPayment db p2) r2, .cancelledAck)

/-! ## Payment initiation (`workshops/views.py`,
`workshops/payment_gateway.py`) -/

/-- The structured result dictionary `initiate_payment` returns. -/
structure InitResult where
  success : Bool
  gateway_url : String
  transaction_id : String
  error : String
deriving Repr, DecidableEq

/-- What came back over the wire from the gateway initiation request:
either a transport failure (any `requests` exception) or a JSON body
with its `status`, `GatewayPageURL` and `failedreason` fields. -/
inductive GatewayResponse
  | transportError (msg : String)
  | jsonBody (status gatewayPageURL failedreason : String)
deriving Repr, DecidableEq

/-- Embedding of the result handling of
`SSLCommerzPayment.initiate_payment` (`workshops/payment_gateway.py`
lines 80-117): a transport error or a `status` other than `SUCCESS`
yields a structured failure dictionary, never an exception. -/
def initiatePaymentResult (tranId : String) (resp : GatewayResponse) :
    InitResult :=
  match resp with
  | .transportError msg =>
    { success := false, gateway_url := "", transaction_id := tranId,
      error := "Connection error: " ++ msg }
  | .jsonBody status url reason =>
    if status = "SUCCESS" then
      { success := true, gateway_url := url, transaction_id := tranId,
        error := "" }
    else
      { success := false, gateway_url := "", transaction_id := tranId,
        error := reason }

/-- The observable outcome of the `payment_confirmation` view. -/
inductive ConfOutcome
  | redirectFree
  | alreadyCompleted
  | redirectGateway (url : String)
  | initiationError (msg : String)
  | notFound
deriving Repr, DecidableEq

/-- Embedding of the POST path of the `payment_confirmation` view
(`workshops/views.py` lines 72-116): free workshops and already
completed registrations short-circuit; a successful initiation creates
the pending `Payment` row with the workshop fee as amount; a failed
initiation only reports the error. -/
def paymentConfirmationHandler (db : DB) (regId : Nat)
    (ir : InitResult) : DB × ConfOutcome :=
  match findRegistration db regId with
  | none => (db, .notFound)
  | some r =>
    match findWorkshop db r.workshopId with
    | none => (db, .notFound)
    | some w =>
      if w.fee100 = 0 then (db, .redirectFree)
      else if r.payment_status = "completed" then (db, .alreadyCompleted)
      else if ir.success then
        ({ db with payments := db.payments ++
            [{ registrationId := r.id,
               transaction_id := ir.transaction_id,
               amount100 := w.fee100,
               payment_status := "pending",
               completed_at := none }] },
         .redirectGateway ir.gateway_url)
      else (db, .initiationError ir.error)

/-! ## Administrative bulk override and store-level registration
creation -/

/-- Embedding of `RegistrationAdmin.mark_as_completed`
(`workshops/admin.py` lines 277-282):
`queryset.update(payment_status='completed')` writes the selected
registration rows directly, bypassing `Registration.save`, and does
not touch any `Payment` row. -/
def adminMarkAsCompleted (db : DB) (ids : List Nat) : DB :=
  let rs := db.registrations.map
    (fun r => if ids.contains r.id then
      { r with payment_status := "completed" } else r)
  { db with registrations := rs }

/-- Creation of a new registration row: `Registration.save` followed
by the insert, with the storage-level unique constraints on
`registration_number` and on `(email, workshop)` rejecting the
insert. -/
def insertRegistration (env : Env) (db : DB) (w : Workshop)
    (r : Registration) : Option DB :=
  let r2 := registrationSave w env.dateStr env.uid r
  if db.registrations.any
      (fun q => q.registration_number == r2.registration_number) then none
  else if db.registrations.any
      (fun q => q.email == r2.email && q.workshopId == r2.workshopId) then
    none
  else some { db with registrations := db.registrations ++ [r2] }

/-! ## Derived workshop state (`workshops/models.py` lines 46-67) -/

/-- Embedding of the `Workshop.current_registrations` property: the
count of the registrations of this workshop whose status is `completed`, or
`free` while the workshop fee is zero. -/
def currentRegistrations (db : DB) (w : Workshop) : Nat :=
  (db.registrations.filter (fun r =>
    r.workshopId == w.id &&
      (r.payment_status == "completed" ||
        (r.payment_status == "free" && w.fee100 == 0)))).length

/-- The count the specification sentence for C6 describes: this
workshop_s registrations whose status is in the set
`{completed, free}`, with no condition on the fee. -/
def currentRegistrationsSpec (db : DB) (w : Workshop) : Nat :=
  (db.registrations.filter (fun r =>
    r.workshopId == w.id &&
      (r.payment_status == "completed" ||
        r.payment_status == "free"))).length

/-- Embedding of the `Workshop.available_slots` property:
`max(0, capacity - current_registrations)`. -/
def availableSlots (db : DB) (w : Workshop) : Int :=
  max 0 ((w.capacity : Int) - (currentRegistrations db w : Int))

/-! ## Traces of lifecycle operations -/

/-- One lifecycle operation on the store, with the ambient inputs it
consumes. -/
inductive Op
  | successCb (env : Env) (valOk : Bool) (tranId amountStr : String)
  | failCb (env : Env) (tranId : String)
  | cancelCb (env : Env) (tranId : String)
  | confirm (regId : Nat) (ir : InitResult)
  | adminComplete (ids : List Nat)

/-- Apply one lifecycle operation, keeping only the store. -/
def applyOp (db : DB) (op : Op) : DB :=
  match op with
  | .successCb env valOk tid amt =>
    (paymentSuccessHandler env valOk db tid amt).1
  | .failCb env tid => (paymentFailHandler env db tid).1
  | .cancelCb env tid => (paymentCancelHandler env db tid).1
  | .confirm rid ir => (paymentConfirmationHandler db rid ir).1
  | .adminComplete ids => adminMarkAsCompleted db ids

/-- Run a sequence of lifecycle operations. -/
def runOps (db : DB) (ops : List Op) : DB := ops.foldl applyOp db

/-- The `completed_at` invariant: every payment in status `completed`
has its completion timestamp set. -/
def CompletedAtInv (db : DB) : Prop :=
  ∀ p ∈ db.payments, p.payment_status = "completed" → p.completed_at ≠ none

instance (db : DB) : Decidable (CompletedAtInv db) := by
  unfold CompletedAtInv; infer_instance

/-! ## Concrete fixtures

Small concrete stores used by the counterexamples and witnesses. -/

/-- A paid workshop with fee 200.00. -/
def wEx : Workshop := { id := 1, fee100 := 20000, capacity := 10, is_active := true }

/-- A pending registration for `wEx`. -/
def rEx : Registration :=
  { id := 1, workshopId := 1, registration_number := "REG-20251010-AAAAA",
    email := "s@example.com", payment_status := "pending" }

/-- A pending payment for `rEx`. -/
def pEx : Payment :=
  { registrationId := 1, transaction_id := "T1", amount100 := 20000,
    payment_status := "pending", completed_at := none }

/-- Store holding the pending registration and its pending payment. -/
def dbEx : DB :=
  { workshops := [wEx], registrations := [rEx], payments := [pEx],
    paymentEmails := [] }

/-- Ambient inputs for concrete runs. -/
def envEx : Env := { now := 9, dateStr := "20251012", uid := "BBBBB" }

/-- The registration `rEx` after a completed payment. -/
def rDone : Registration := { rEx with payment_status := "completed" }

/-- The payment `pEx` after completion at time 5. -/
def pDone : Payment :=
  { pEx with payment_status := "completed", completed_at := some 5 }

/-- Store in which the payment has already completed at time 5 and the
confirmation email has been sent once. -/
def dbDone : DB :=
  { workshops := [wEx], registrations := [rDone], payments := [pDone],
    paymentEmails := ["REG-20251010-AAAAA"] }

/-- A paid workshop with fee 100.00 used by the counting
counterexample. -/
def wPaid : Workshop := { id := 2, fee100 := 10000, capacity := 5, is_active := true }

/-- A registration against `wPaid` that carries status `free`. -/
def rFree : Registration :=
  { id := 2, workshopId := 2, registration_number := "REG-20251010-CCCCC",
    email := "t@example.com", payment_status := "free" }

/-- Store pairing the paid workshop with a `free`-status
registration. -/
def dbFree : DB :=
  { workshops := [wPaid], registrations := [rFree], payments := [],
    paymentEmails := [] }

/-- An empty store. -/
def dbEmpty : DB :=
  { workshops := [], registrations := [], payments := [], paymentEmails := [] }

/-- A zero-fee workshop that nevertheless has a payment row (its fee
was edited down to 0 after the payment was initiated — the admin
surface leaves the fee editable). -/
def wZero : Workshop := { id := 5, fee100 := 0, capacity := 5, is_active := true }

/-- A pending registration for `wZero`. -/
def rZero : Registration :=
  { id := 6, workshopId := 5, registration_number := "REG-20251010-DDDDD",
    email := "z@example.com", payment_status := "pending" }

/-- The pending payment of `rZero`, initiated while the fee was still
200.00. -/
def pZero : Payment :=
  { registrationId := 6, transaction_id := "T2", amount100 := 20000,
    payment_status := "pending", completed_at := none }

/-- Store pairing the zero-fee workshop with its pending payment. -/
def dbZero : DB :=
  { workshops := [wZero], registrations := [rZero], payments := [pZero],
    paymentEmails := [] }

/-- The store produced by inserting `rNew` against the paid `wEx`
into the empty store under `envEx`. -/
def dbPendIns : DB :=
  { workshops := [], payments := [], paymentEmails := [],
    registrations :=
      [{ id := 3, workshopId := 4,
         registration_number := "REG-20251012-BBBBB",
         email := "u@example.com", payment_status := "pending" }] }

/-- A free workshop (fee 0.00). -/
def wFree : Workshop := { id := 4, fee100 := 0, capacity := 5, is_active := true }

/-- A fresh, not yet saved registration row for `wFree`, submitted with
status `pending`. -/
def rNew : Registration :=
  { id := 3, workshopId := 4, registration_number := "",
    email := "u@example.com", payment_status := "pending" }

/-- The store produced by inserting `rNew` against `wFree` into the
empty store under `envEx`. -/
def dbFreeResult : DB :=
  { workshops := [], payments := [], paymentEmails := [],
    registrations :=
      [{ id := 3, workshopId := 4,
         registration_number := "REG-20251012-BBBBB",
         email := "u@example.com", payment_status := "free" }] }

/-! ## Helper lemmas: lookups and updates -/

theorem payments_setRegistration (db : DB) (r : Registration) :
    (setRegistration db r).payments = db.payments := rfl

theorem registrations_setPayment (db : DB) (p : Payment) :
    (setPayment db p).registrations = db.registrations := rfl

theorem payments_appendEmail (db : DB) (s : String) :
    (appendEmail db s).payments = db.payments := rfl

theorem findPayment_setRegistration (db : DB) (r : Registration)
    (tid : String) : findPayment (setRegistration db r) tid = findPayment db tid := rfl

theorem findPayment_appendEmail (db : DB) (s tid : String) :
    findPayment (appendEmail db s) tid = findPayment db tid := rfl

theorem findRegistration_setPayment (db : DB) (p : Payment) (rid : Nat) :
    findRegistration (setPayment db p) rid = findRegistration db rid := rfl

theorem findRegistration_appendEmail (db : DB) (s : String) (rid : Nat) :
    findRegistration (appendEmail db s) rid = findRegistration db rid := rfl

/-- Replacing the row a `find?` located (keyed by the same key) makes
the subsequent `find?` return the replacement. -/
theorem find_map_update {α β : Type} [BEq β] [LawfulBEq β] (key : α → β)
    (l : List α) (k : β) (x x2 : α)
    (hx : l.find? (fun q => key q == k) = some x) (h2 : key x2 = key x) :
    (l.map (fun q => if key q == key x2 then x2 else q)).find?
      (fun q => key q == k) = some x2 := by
  have hxk : key x = k := by
    have := List.find?_some hx
    exact eq_of_beq this
  induction l with
  | nil => simp at hx
  | cons a t ih =>
    cases ha : key a == k with
    | false =>
      have h1 : (key a == key x2) = false := by
        rw [h2, hxk]
        exact ha
      simp only [List.find?_cons, ha, List.map_cons, h1, if_neg Bool.false_ne_true] at hx ⊢
      exact ih hx
    | true =>
      have hax : a = x := by
        simp only [List.find?_cons, ha] at hx
        exact Option.some.inj hx
      have h1 : (key a == key x2) = true := by
        rw [h2, hax]
        exact beq_self_eq_true (key x)
      have h3 : (key x2 == k) = true := by
        rw [h2, hxk]
        exact beq_self_eq_true k
      simp [List.map_cons, h1, List.find?_cons, h3]

/-- After `setPayment` with a row carrying the located transaction id,
the lookup returns the new row. -/
theorem findPayment_setPayment (db : DB) (tid : String) (p p2 : Payment)
    (hp : findPayment db tid = some p)
    (h2 : p2.transaction_id = p.transaction_id) :
    findPayment (setPayment db p2) tid = some p2 := by
  unfold findPayment setPayment at *
  exact find_map_update Payment.transaction_id db.payments tid p p2 hp h2

/-- After `setRegistration` with a row carrying the located id, the
lookup returns the new row. -/
theorem findRegistration_setRegistration (db : DB) (rid : Nat)
    (r r2 : Registration) (hr : findRegistration db rid = some r)
    (h2 : r2.id = r.id) :
    findRegistration (setRegistration db r2) rid = some r2 := by
  unfold findRegistration setRegistration at *
  exact find_map_update Registration.id db.registrations rid r r2 hr h2

/-! ## Helper lemmas: Registration.save projections -/

theorem registrationSave_id (w : Workshop) (ds uid : String)
    (r : Registration) : (registrationSave w ds uid r).id = r.id := by
  unfold registrationSave
  split <;> split <;> rfl

theorem registrationSave_status (w : Workshop) (ds uid : String)
    (r : Registration) (hfee : w.fee100 ≠ 0) :
    (registrationSave w ds uid r).payment_status = r.payment_status := by
  unfold registrationSave
  rw [if_neg hfee]
  split <;> rfl

theorem registrationSave_status_free (w : Workshop) (ds uid : String)
    (r : Registration) (hfee : w.fee100 = 0) :
    (registrationSave w ds uid r).payment_status = "free" := by
  unfold registrationSave
  rw [if_pos hfee]

theorem registrationSave_number_kept (w : Workshop) (ds uid : String)
    (r : Registration) (h : r.registration_number ≠ "") :
    (registrationSave w ds uid r).registration_number
      = r.registration_number := by
  unfold registrationSave
  rw [if_neg h]
  split <;> rfl

theorem registrationSave_number_new (w : Workshop) (ds uid : String)
    (r : Registration) (h : r.registration_number = "") :
    (registrationSave w ds uid r).registration_number
      = "REG-" ++ ds ++ "-" ++ uid := by
  unfold registrationSave
  rw [if_pos h]
  split <;> rfl

/-- Both lookups after persisting an updated payment row and an
updated registration row keyed like the located ones. -/
theorem finds_after_both (db : DB) (tranId : String) (rid : Nat)
    (p p2 : Payment) (r r2 : Registration)
    (hp : findPayment db tranId = some p)
    (hr : findRegistration db rid = some r)
    (htid : p2.transaction_id = p.transaction_id)
    (hid : r2.id = r.id) :
    findPayment (setRegistration (setPayment db p2) r2) tranId = some p2
    ∧ findRegistration (setRegistration (setPayment db p2) r2) rid
      = some r2 := by
  constructor
  · rw [findPayment_setRegistration]
    exact findPayment_setPayment db tranId p p2 hp htid
  · apply findRegistration_setRegistration (setPayment db p2) rid r r2 _ hid
    rw [findRegistration_setPayment]
    exact hr

/-- Membership in the payment table after `setPayment`: a row is the
new row or was already present. -/
theorem mem_setPayment {db : DB} {p2 q : Payment}
    (hq : q ∈ (setPayment db p2).payments) : q = p2 ∨ q ∈ db.payments := by
  simp only [setPayment] at hq
  obtain ⟨x, hx, hfx⟩ := List.mem_map.mp hq
  by_cases hc : (x.transaction_id == p2.transaction_id) = true
  · rw [if_pos hc] at hfx
    exact Or.inl hfx.symm
  · rw [if_neg hc] at hfx
    exact Or.inr (hfx ▸ hx)

/-- Each lifecycle operation preserves the `completed_at` invariant:
the only transition that produces status `completed` also sets the
timestamp, and payment creation starts at `pending` with no
timestamp. -/
theorem applyOp_preserves_completedAtInv (db : DB) (op : Op)
    (h : CompletedAtInv db) : CompletedAtInv (applyOp db op) := by
  cases op with
  | successCb env valOk tid amt =>
    show CompletedAtInv (paymentSuccessHandler env valOk db tid amt).1
    cases hfp : findPayment db tid with
    | none => simp only [paymentSuccessHandler, hfp]; exact h
    | some p =>
      cases hfr : findRegistration db p.registrationId with
      | none => simp only [paymentSuccessHandler, hfp, hfr]; exact h
      | some r =>
        cases hfw : findWorkshop db r.workshopId with
        | none => simp only [paymentSuccessHandler, hfp, hfr, hfw]; exact h
        | some w =>
          cases valOk with
          | false =>
            simp only [paymentSuccessHandler, hfp, hfr, hfw,
              Bool.false_eq_true, if_false, markFailed]
            intro q hq hqs
            rw [payments_setRegistration] at hq
            rcases mem_setPayment hq with rfl | hq2
            · have hbad : ("failed" : String) = "completed" := hqs
              exact absurd hbad (by decide)
            · exact h q hq2 hqs
          | true =>
            cases hv : verify_payment_amount amt (feeToString w.fee100) with
            | false =>
              simp only [paymentSuccessHandler, hfp, hfr, hfw, if_true, hv,
                Bool.false_eq_true, if_false, markFailed]
              intro q hq hqs
              rw [payments_setRegistration] at hq
              rcases mem_setPayment hq with rfl | hq2
              · have hbad : ("failed" : String) = "completed" := hqs
                exact absurd hbad (by decide)
              · exact h q hq2 hqs
            | true =>
              simp only [paymentSuccessHandler, hfp, hfr, hfw, if_true, hv,
                markCompleted]
              intro q hq hqs
              rw [payments_appendEmail, payments_setRegistration] at hq
              rcases mem_setPayment hq with rfl | hq2
              · exact Option.some_ne_none env.now
              · exact h q hq2 hqs
  | failCb env tid =>
    show CompletedAtInv (paymentFailHandler env db tid).1
    cases hfp : findPayment db tid with
    | none => simp only [paymentFailHandler, hfp]; exact h
    | some p =>
      cases hfr : findRegistration db p.registrationId with
      | none => simp only [paymentFailHandler, hfp, hfr]; exact h
      | some r =>
        cases hfw : findWorkshop db r.workshopId with
        | none => simp only [paymentFailHandler, hfp, hfr, hfw]; exact h
        | some w =>
          simp only [paymentFailHandler, hfp, hfr, hfw, markFailed]
          intro q hq hqs
          rw [payments_setRegistration] at hq
          rcases mem_setPayment hq with rfl | hq2
          · have hbad : ("failed" : String) = "completed" := hqs
            exact absurd hbad (by decide)
          · exact h q hq2 hqs
  | cancelCb env tid =>
    show CompletedAtInv (paymentCancelHandler env db tid).1
    cases hfp : findPayment db tid with
    | none => simp only [paymentCancelHandler, hfp]; exact h
    | some p =>
      cases hfr : findRegistration db p.registrationId with
      | none => simp only [paymentCancelHandler, hfp, hfr]; exact h
      | some r =>
        cases hfw : findWorkshop db r.workshopId with
        | none => simp only [paymentCancelHandler, hfp, hfr, hfw]; exact h
        | some w =>
          simp only [paymentCancelHandler, hfp, hfr, hfw]
          intro q hq hqs
          rw [payments_setRegistration] at hq
          rcases mem_setPayment hq with rfl | hq2
          · have hbad : ("cancelled" : String) = "completed" := hqs
            exact absurd hbad (by decide)
          · exact h q hq2 hqs
  | confirm rid ir =>
    show CompletedAtInv (paymentConfirmationHandler db rid ir).1
    cases hfr : findRegistration db rid with
    | none => simp only [paymentConfirmationHandler, hfr]; exact h
    | some r =>
      cases hfw : findWorkshop db r.workshopId with
      | none => simp only [paymentConfirmationHandler, hfr, hfw]; exact h
      | some w =>
        by_cases h0 : w.fee100 = 0
        · simp only [paymentConfirmationHandler, hfr, hfw, if_pos h0]
          exact h
        · by_cases hc : r.payment_status = "completed"
          · simp only [paymentConfirmationHandler, hfr, hfw, if_neg h0,
              if_pos hc]
            exact h
          · cases hs : ir.success with
            | false =>
              simp only [paymentConfirmationHandler, hfr, hfw, if_neg h0,
                if_neg hc, hs, Bool.false_eq_true, if_false]
              exact h
            | true =>
              simp only [paymentConfirmationHandler, hfr, hfw, if_neg h0,
                if_neg hc, hs, if_true]
              intro q hq hqs
              rcases List.mem_append.mp hq with hq1 | hq2
              · exact h q hq1 hqs
              · rw [List.mem_singleton] at hq2
                rw [hq2] at hqs
                have hbad : ("pending" : String) = "completed" := hqs
                exact absurd hbad (by decide)
  | adminComplete ids =>
    intro q hq hqs
    exact h q hq hqs

/-! ## Claim theorems -/

/-- C8: a success, fail or cancel callback whose transaction id
matches no payment row reports `paymentNotFound` and leaves the store
untouched; no branch escapes exceptionally (the handlers are total
functions returning an outcome). -/
theorem c8_unknown_transaction_no_mutation (env : Env) (valOk : Bool)
    (db : DB) (tranId amountStr : String)
    (h : findPayment db tranId = none) :
    paymentSuccessHandler env valOk db tranId amountStr
        = (db, CbOutcome.paymentNotFound)
    ∧ paymentFailHandler env db tranId = (db, CbOutcome.paymentNotFound)
    ∧ paymentCancelHandler env db tranId = (db, CbOutcome.paymentNotFound) := by
  unfold paymentSuccessHandler paymentFailHandler paymentCancelHandler
  rw [h]
  exact ⟨rfl, rfl, rfl⟩

theorem c8_witness :
    findPayment dbEmpty "TX" = none
    ∧ (paymentSuccessHandler envEx true dbEmpty "TX" "1.00"
          = (dbEmpty, CbOutcome.paymentNotFound)
        ∧ paymentFailHandler envEx dbEmpty "TX"
          = (dbEmpty, CbOutcome.paymentNotFound)
        ∧ paymentCancelHandler envEx dbEmpty "TX"
          = (dbEmpty, CbOutcome.paymentNotFound)) :=
  ⟨by decide,
   c8_unknown_transaction_no_mutation envEx true dbEmpty "TX" "1.00" (by decide)⟩

/-- C4: saving any registration of a zero-fee workshop forces its
status to `free`, whatever status it held; inserting a new
registration against a zero-fee workshop therefore persists it with
status `free`. -/
theorem c4_free_workshop_forces_free_status (env : Env) (db dbres : DB)
    (w : Workshop) (r : Registration) (hfee : w.fee100 = 0)
    (hins : insertRegistration env db w r = some dbres) :
    (registrationSave w env.dateStr env.uid r).payment_status = "free"
    ∧ dbres.registrations.map Registration.payment_status
      = db.registrations.map Registration.payment_status ++ ["free"] := by
  refine ⟨registrationSave_status_free w env.dateStr env.uid r hfee, ?_⟩
  simp only [insertRegistration] at hins
  split at hins
  · exact absurd hins (by simp)
  · split at hins
    · exact absurd hins (by simp)
    · have hdb := Option.some.inj hins
      rw [← hdb]
      simp [List.map_append, registrationSave_status_free w _ _ r hfee]

theorem c4_witness :
    insertRegistration envEx dbEmpty wFree rNew = some dbFreeResult
    ∧ ((registrationSave wFree envEx.dateStr envEx.uid rNew).payment_status
          = "free"
        ∧ dbFreeResult.registrations.map Registration.payment_status
          = dbEmpty.registrations.map Registration.payment_status
              ++ ["free"]) :=
  ⟨by decide,
   c4_free_workshop_forces_free_status envEx dbEmpty dbFreeResult wFree rNew
     rfl (by decide)⟩

/-- C2 counterexample, two failures of the original claim.  First,
the administrative bulk override marks the selected registration
`completed` while its payment row stays `pending`, so the two rows
disagree on the completed status right after an operation the claim
covers.  Second, a fail callback for the payment of a zero-fee
workshop marks the payment `failed` while `Registration.save`
reroutes the mirrored registration status to `free`, so even a
callback transition leaves the two rows disagreeing on the failed
status. -/
theorem c2_counterexample_status_desync :
    ((findRegistration (adminMarkAsCompleted dbEx [1]) 1).map
        Registration.payment_status = some "completed"
      ∧ (findPayment (adminMarkAsCompleted dbEx [1]) "T1").map
          Payment.payment_status = some "pending")
    ∧ ((findPayment (paymentFailHandler envEx dbZero "T2").1 "T2").map
          Payment.payment_status = some "failed"
      ∧ (findRegistration (paymentFailHandler envEx dbZero "T2").1 6).map
          Registration.payment_status = some "free") := by decide

/-- C3: re-delivering the success callback for the already completed
payment `T1` (validation passing, amount matching) creates no second
payment row and returns the same success outcome, but it overwrites
`completed_at` (5 becomes 9) and appends a second confirmation email,
so the repeat delivery is not a no-op. -/
theorem c3_repeat_success_callback_not_idempotent :
    (findPayment dbDone "T1").map Payment.completed_at = some (some 5)
    ∧ (paymentSuccessHandler envEx true dbDone "T1" "200.00").2
      = CbOutcome.successConfirmed "REG-20251010-AAAAA"
    ∧ (paymentSuccessHandler envEx true dbDone "T1" "200.00").1.payments.length
      = 1
    ∧ (findPayment (paymentSuccessHandler envEx true dbDone "T1" "200.00").1
          "T1").map Payment.completed_at = some (some 9)
    ∧ (paymentSuccessHandler envEx true dbDone "T1" "200.00").1.paymentEmails
      = ["REG-20251010-AAAAA", "REG-20251010-AAAAA"] := by decide

/-- C7 counterexample: a fail callback delivered after completion
marks the payment `failed` but leaves `completed_at` set, so a
non-completed payment carries a completion timestamp and the claimed
equivalence fails. -/
theorem c7_counterexample_fail_after_complete :
    (findPayment (paymentFailHandler envEx dbDone "T1").1 "T1").map
        Payment.payment_status = some "failed"
    ∧ (findPayment (paymentFailHandler envEx dbDone "T1").1 "T1").map
        Payment.completed_at = some (some 5) := by decide

/-- C6 counterexample: a registration with status `free` against a
workshop whose fee is 100.00 is not counted by
`current_registrations`, while the set `{completed, free}` of the
claim would count it. -/
theorem c6_counterexample_free_status_paid_fee :
    currentRegistrations dbFree wPaid = 0
    ∧ currentRegistrationsSpec dbFree wPaid = 1 := by decide

/-- C2 (amended): the success, fail and cancel callback handlers
update the payment row and its registration row together, so after any
of them the two rows carry the same status, provided the workshop fee
is nonzero — for a zero-fee workshop `Registration.save` reroutes the
mirrored status to `free` while the payment keeps its own status
(second counterexample conjunct); the administrative bulk override is
excluded, since it updates only registration rows (first
counterexample conjunct). -/
theorem c2_callbacks_keep_statuses_in_sync (env : Env) (valOk : Bool)
    (db : DB) (tranId amountStr : String) (p : Payment)
    (r : Registration) (w : Workshop)
    (hp : findPayment db tranId = some p)
    (hr : findRegistration db p.registrationId = some r)
    (hw : findWorkshop db r.workshopId = some w)
    (hfee : w.fee100 ≠ 0) :
    ((findPayment (paymentSuccessHandler env valOk db tranId amountStr).1
          tranId).map Payment.payment_status
      = (findRegistration (paymentSuccessHandler env valOk db tranId
          amountStr).1 p.registrationId).map Registration.payment_status)
    ∧ ((findPayment (paymentFailHandler env db tranId).1 tranId).map
          Payment.payment_status
      = (findRegistration (paymentFailHandler env db tranId).1
          p.registrationId).map Registration.payment_status)
    ∧ ((findPayment (paymentCancelHandler env db tranId).1 tranId).map
          Payment.payment_status
      = (findRegistration (paymentCancelHandler env db tranId).1
          p.registrationId).map Registration.payment_status) := by
  have hid : ∀ s : String,
      (registrationSave w env.dateStr env.uid
        { r with payment_status := s }).id = r.id := by
    intro s
    rw [registrationSave_id]
  have hst : ∀ s : String,
      (registrationSave w env.dateStr env.uid
        { r with payment_status := s }).payment_status = s := by
    intro s
    exact registrationSave_status w env.dateStr env.uid
      { r with payment_status := s } hfee
  refine ⟨?_, ?_, ?_⟩
  · cases valOk with
    | false =>
      simp only [paymentSuccessHandler, hp, hr, hw, Bool.false_eq_true,
        if_false, markFailed]
      obtain ⟨h1, h2⟩ := finds_after_both db tranId p.registrationId p
        { p with payment_status := "failed" } r
        (registrationSave w env.dateStr env.uid
          { r with payment_status := "failed" }) hp hr rfl (hid "failed")
      rw [h1, h2]
      simp [hst]
    | true =>
      cases hv : verify_payment_amount amountStr (feeToString w.fee100) with
      | false =>
        simp only [paymentSuccessHandler, hp, hr, hw, if_true, hv,
          Bool.false_eq_true, if_false, markFailed]
        obtain ⟨h1, h2⟩ := finds_after_both db tranId p.registrationId p
          { p with payment_status := "failed" } r
          (registrationSave w env.dateStr env.uid
            { r with payment_status := "failed" }) hp hr rfl (hid "failed")
        rw [h1, h2]
        simp [hst]
      | true =>
        simp only [paymentSuccessHandler, hp, hr, hw, if_true, hv,
          markCompleted, findPayment_appendEmail,
          findRegistration_appendEmail]
        obtain ⟨h1, h2⟩ := finds_after_both db tranId p.registrationId p
          { p with payment_status := "completed", completed_at := some env.now } r
          (registrationSave w env.dateStr env.uid
            { r with payment_status := "completed" }) hp hr rfl
          (hid "completed")
        rw [h1, h2]
        simp [hst]
  · simp only [paymentFailHandler, hp, hr, hw, markFailed]
    obtain ⟨h1, h2⟩ := finds_after_both db tranId p.registrationId p
      { p with payment_status := "failed" } r
      (registrationSave w env.dateStr env.uid
        { r with payment_status := "failed" }) hp hr rfl (hid "failed")
    rw [h1, h2]
    simp [hst]
  · simp only [paymentCancelHandler, hp, hr, hw]
    obtain ⟨h1, h2⟩ := finds_after_both db tranId p.registrationId p
      { p with payment_status := "cancelled" } r
      (registrationSave w env.dateStr env.uid
        { r with payment_status := "cancelled" }) hp hr rfl
      (hid "cancelled")
    rw [h1, h2]
    simp [hst]

theorem c2_witness :
    findPayment dbEx "T1" = some pEx
    ∧ ((findPayment (paymentSuccessHandler envEx true dbEx "T1"
            "150.00").1 "T1").map Payment.payment_status
        = (findRegistration (paymentSuccessHandler envEx true dbEx "T1"
            "150.00").1 pEx.registrationId).map Registration.payment_status
      ∧ ((findPayment (paymentFailHandler envEx dbEx "T1").1 "T1").map
            Payment.payment_status
        = (findRegistration (paymentFailHandler envEx dbEx "T1").1
            pEx.registrationId).map Registration.payment_status)
      ∧ ((findPayment (paymentCancelHandler envEx dbEx "T1").1 "T1").map
            Payment.payment_status
        = (findRegistration (paymentCancelHandler envEx dbEx "T1").1
            pEx.registrationId).map Registration.payment_status)) :=
  ⟨by decide,
   c2_callbacks_keep_statuses_in_sync envEx true dbEx "T1" "150.00" pEx rEx
     wEx (by decide) (by decide) (by decide) (by decide)⟩

/-- C7 (amended): status `completed` implies a set `completed_at` in
every store reachable by lifecycle operations from a store satisfying
that property (only the completion transition produces status
`completed`, and it sets the timestamp; creation starts `pending` with
no timestamp).  The converse direction of the original claim fails:
fail and cancel transitions never clear `completed_at`, so a payment
completed earlier keeps its timestamp after moving to `failed` or
`cancelled` (see the counterexample). -/
theorem c7_completed_status_implies_timestamp (db : DB) (ops : List Op)
    (h : CompletedAtInv db) : CompletedAtInv (runOps db ops) := by
  induction ops generalizing db with
  | nil => exact h
  | cons op t ih =>
    exact ih (applyOp db op) (applyOp_preserves_completedAtInv db op h)

theorem c7_witness :
    CompletedAtInv dbEx
    ∧ CompletedAtInv (runOps dbEx
        [Op.successCb envEx true "T1" "200.00", Op.failCb envEx "T1"]) :=
  ⟨by decide,
   c7_completed_status_implies_timestamp dbEx
     [Op.successCb envEx true "T1" "200.00", Op.failCb envEx "T1"]
     (by decide)⟩

/-- C9: when the gateway initiation fails (transport error or a
provider status other than `SUCCESS`), the result is a structured
failure value, and the confirmation view then creates no payment row,
leaves the store untouched (so the registration keeps its pending
status), and reports the error. -/
theorem c9_initiate_failure_leaves_state_unchanged (db : DB)
    (regId : Nat) (r : Registration) (w : Workshop)
    (tranId msg status url reason : String) (resp : GatewayResponse)
    (hr : findRegistration db regId = some r)
    (hw : findWorkshop db r.workshopId = some w)
    (hfee : w.fee100 ≠ 0) (hst : r.payment_status ≠ "completed")
    (hfail : (initiatePaymentResult tranId resp).success = false) :
    paymentConfirmationHandler db regId (initiatePaymentResult tranId resp)
      = (db, ConfOutcome.initiationError
          (initiatePaymentResult tranId resp).error)
    ∧ (paymentConfirmationHandler db regId
        (initiatePaymentResult tranId resp)).1.payments = db.payments
    ∧ (findRegistration (paymentConfirmationHandler db regId
        (initiatePaymentResult tranId resp)).1 regId).map
        Registration.payment_status = some r.payment_status
    ∧ (initiatePaymentResult tranId
        (GatewayResponse.transportError msg)).success = false
    ∧ (status ≠ "SUCCESS" → (initiatePaymentResult tranId
        (GatewayResponse.jsonBody status url reason)).success = false) := by
  have hmain : paymentConfirmationHandler db regId
      (initiatePaymentResult tranId resp)
      = (db, ConfOutcome.initiationError
          (initiatePaymentResult tranId resp).error) := by
    simp only [paymentConfirmationHandler, hr, hw, if_neg hfee, if_neg hst,
      hfail, Bool.false_eq_true, if_false]
  refine ⟨hmain, ?_, ?_, rfl, ?_⟩
  · rw [hmain]
  · rw [hmain, hr]
    rfl
  · intro hns
    simp only [initiatePaymentResult, if_neg hns]

theorem c9_witness :
    findRegistration dbEx 1 = some rEx
    ∧ (paymentConfirmationHandler dbEx 1
          (initiatePaymentResult "TXN-1"
            (GatewayResponse.transportError "timeout"))
        = (dbEx, ConfOutcome.initiationError
            (initiatePaymentResult "TXN-1"
              (GatewayResponse.transportError "timeout")).error)
      ∧ (paymentConfirmationHandler dbEx 1
          (initiatePaymentResult "TXN-1"
            (GatewayResponse.transportError "timeout"))).1.payments
          = dbEx.payments
      ∧ (findRegistration (paymentConfirmationHandler dbEx 1
          (initiatePaymentResult "TXN-1"
            (GatewayResponse.transportError "timeout"))).1 1).map
          Registration.payment_status = some rEx.payment_status
      ∧ (initiatePaymentResult "TXN-1"
          (GatewayResponse.transportError "net down")).success = false
      ∧ ("FAILED" ≠ "SUCCESS" → InitResult.success
          (initiatePaymentResult "TXN-1"
            (GatewayResponse.jsonBody "FAILED" "" "Store Credential Error"))
          = false)) :=
  ⟨by decide,
   c9_initiate_failure_leaves_state_unchanged dbEx 1 rEx wEx "TXN-1"
     "net down" "FAILED" "" "Store Credential Error"
     (GatewayResponse.transportError "timeout") (by decide) (by decide)
     (by decide) (by decide) (by decide)⟩

/-! ## Helper lemmas: digits, rendering and the parser round trip -/

theorem decChar_facts {d : Nat} (h : d < 10) :
    isDigitChar (decChar d) = true ∧ digitVal (decChar d) = d
    ∧ decChar d ≠ '+' ∧ decChar d ≠ '-' ∧ decChar d ≠ '.' := by
  interval_cases d <;> decide

theorem hexChar_isHex {d : Nat} (h : d < 16) :
    isHexUpperChar (hexChar d) = true := by
  interval_cases d <;> decide

theorem digitsVal_foldl : ∀ (cs : List Char) (acc : Nat),
    cs.foldl (fun a c => 10 * a + digitVal c) acc
      = acc * 10 ^ cs.length + digitsVal cs
  | [], acc => by simp [digitsVal]
  | c :: t, acc => by
    have ih := digitsVal_foldl t
    simp only [digitsVal, List.foldl_cons, List.length_cons]
    rw [ih (10 * acc + digitVal c), ih (10 * 0 + digitVal c)]
    ring

theorem digitsVal_append (a b : List Char) :
    digitsVal (a ++ b) = digitsVal a * 10 ^ b.length + digitsVal b := by
  show (a ++ b).foldl _ 0 = _
  rw [List.foldl_append, digitsVal_foldl]
  rfl

theorem digitsVal_singleton (c : Char) : digitsVal [c] = digitVal c := by
  simp [digitsVal]

theorem natToDigitsAux_facts : ∀ (fuel n : Nat), n < fuel →
    digitsVal (natToDigitsAux fuel n) = n
    ∧ (∀ c ∈ natToDigitsAux fuel n, isDigitChar c = true)
    ∧ natToDigitsAux fuel n ≠ []
  | 0, n, h => absurd h (Nat.not_lt_zero n)
  | fuel + 1, n, h => by
    by_cases h10 : n < 10
    · simp only [natToDigitsAux, if_pos h10]
      refine ⟨?_, ?_, by simp⟩
      · rw [digitsVal_singleton]
        exact (decChar_facts h10).2.1
      · intro c hc
        rw [List.mem_singleton] at hc
        rw [hc]
        exact (decChar_facts h10).1
    · have hdiv : n / 10 < fuel := by
        have := Nat.div_lt_self (by omega : 0 < n) (by omega : 1 < 10)
        omega
      obtain ⟨ihv, ihd, _⟩ := natToDigitsAux_facts fuel (n / 10) hdiv
      have hmod : n % 10 < 10 := Nat.mod_lt n (by omega)
      simp only [natToDigitsAux, if_neg h10]
      refine ⟨?_, ?_, by simp⟩
      · rw [digitsVal_append, digitsVal_singleton, ihv,
          (decChar_facts hmod).2.1]
        have hp : (10 : Nat) ^ ([decChar (n % 10)].length) = 10 := rfl
        rw [hp]
        omega
      · intro c hc
        rcases List.mem_append.mp hc with hc1 | hc2
        · exact ihd c hc1
        · rw [List.mem_singleton] at hc2
          rw [hc2]
          exact (decChar_facts hmod).1

theorem natToDigits_facts (n : Nat) :
    digitsVal (natToDigits n) = n
    ∧ (∀ c ∈ natToDigits n, isDigitChar c = true)
    ∧ natToDigits n ≠ [] :=
  natToDigitsAux_facts (n + 1) n (Nat.lt_succ_self n)

theorem takeWhile_all_append {p : Char → Bool} : ∀ (l r : List Char),
    (∀ c ∈ l, p c = true) → (∀ c, r.head? = some c → p c = false) →
    (l ++ r).takeWhile p = l ∧ (l ++ r).dropWhile p = r
  | [], r, _, hr => by
    cases r with
    | nil => exact ⟨rfl, rfl⟩
    | cons c t =>
      constructor
      · simp [List.takeWhile_cons, hr c rfl]
      · simp [List.dropWhile_cons, hr c rfl]
  | a :: l, r, hl, hr => by
    have ha := hl a (List.mem_cons_self a l)
    obtain ⟨ih1, ih2⟩ := takeWhile_all_append l r
      (fun c hc => hl c (List.mem_cons_of_mem a hc)) hr
    constructor
    · simp [List.takeWhile_cons, ha, ih1]
    · simp [List.dropWhile_cons, ha, ih2]

theorem takeWhile_all {p : Char → Bool} (l : List Char)
    (h : ∀ c ∈ l, p c = true) :
    l.takeWhile p = l ∧ l.dropWhile p = [] := by
  have := takeWhile_all_append l [] h (fun c hc => by simp at hc)
  simpa using this

theorem pad2_digits (m : Nat) (hm : m < 100) :
    (∀ c ∈ pad2 m, isDigitChar c = true) ∧ digitsVal (pad2 m) = m := by
  have h1 : m / 10 < 10 := by omega
  have h2 : m % 10 < 10 := by omega
  constructor
  · intro c hc
    simp only [pad2, List.mem_cons, List.mem_singleton] at hc
    rcases hc with rfl | rfl | hfalse
    · exact (decChar_facts h1).1
    · exact (decChar_facts h2).1
    · exact absurd hfalse (List.not_mem_nil c)
  · show digitsVal [decChar (m / 10), decChar (m % 10)] = m
    simp only [digitsVal, List.foldl_cons, List.foldl_nil]
    rw [(decChar_facts h1).2.1, (decChar_facts h2).2.1]
    omega

theorem dropWhile_all_false {p : Char → Bool} : ∀ l : List Char,
    (∀ c ∈ l, p c = false) → l.dropWhile p = l
  | [], _ => rfl
  | c :: t, h => by
    simp [List.dropWhile_cons, h c (List.mem_cons_self c t)]

theorem stripChars_id (l : List Char)
    (h : ∀ c ∈ l, isSpaceChar c = false) : stripChars l = l := by
  unfold stripChars
  rw [dropWhile_all_false l h,
    dropWhile_all_false l.reverse (fun c hc => h c (List.mem_reverse.mp hc)),
    List.reverse_reverse]

/-- A digit character is not whitespace and not an underscore, so the
preprocessing of the `Decimal` constructor leaves it alone. -/
theorem digitChar_class {c : Char} (h : isDigitChar c = true) :
    isSpaceChar c = false ∧ (c != '_') = true := by
  simp only [isDigitChar, Bool.and_eq_true] at h
  obtain ⟨ha, hb⟩ := h
  have h0 : '0' ≤ c := of_decide_eq_true ha
  have h9 : c ≤ '9' := of_decide_eq_true hb
  constructor
  · have e1 : ¬ c = ' ' := by
      intro he
      rw [he] at h0
      exact absurd h0 (by decide)
    have e2 : ¬ c = Char.ofNat 9 := by
      intro he
      rw [he] at h0
      exact absurd h0 (by decide)
    have e3 : ¬ c = Char.ofNat 10 := by
      intro he
      rw [he] at h0
      exact absurd h0 (by decide)
    have e4 : ¬ c = Char.ofNat 13 := by
      intro he
      rw [he] at h0
      exact absurd h0 (by decide)
    have e5 : ¬ c = Char.ofNat 11 := by
      intro he
      rw [he] at h0
      exact absurd h0 (by decide)
    have e6 : ¬ c = Char.ofNat 12 := by
      intro he
      rw [he] at h0
      exact absurd h0 (by decide)
    simp [isSpaceChar, e1, e2, e3, e4, e5, e6]
  · rw [bne_iff_ne]
    intro he
    rw [he] at h9
    exact absurd h9 (by decide)

/-- The rendered fee string consists of digits and one dot, so the
constructor preprocessing (whitespace strip, underscore removal)
leaves it unchanged. -/
theorem preprocess_feeToString (f : Nat) :
    preprocessDecInput (feeToString f)
      = natToDigits (f / 100) ++ '.' :: pad2 (f % 100) := by
  obtain ⟨_, hdig, _⟩ := natToDigits_facts (f / 100)
  obtain ⟨hfdig, _⟩ := pad2_digits (f % 100) (by omega)
  have hclass : ∀ c ∈ natToDigits (f / 100) ++ '.' :: pad2 (f % 100),
      isSpaceChar c = false ∧ (c != '_') = true := by
    intro c hc
    rcases List.mem_append.mp hc with h1 | h2
    · exact digitChar_class (hdig c h1)
    · rcases List.mem_cons.mp h2 with rfl | h3
      · exact ⟨rfl, rfl⟩
      · exact digitChar_class (hfdig c h3)
  show (stripChars (feeToString f).toList).filter _ = _
  have hdata : (feeToString f).toList
      = natToDigits (f / 100) ++ '.' :: pad2 (f % 100) := rfl
  rw [hdata, stripChars_id _ (fun c hc => (hclass c hc).1),
    List.filter_eq_self.mpr (fun c hc => (hclass c hc).2)]

/-- The digit-and-dot character list of a rendered fee parses as an
unsigned numeral with value `fee / 100`. -/
theorem parseUnsigned_feeChars (f : Nat) :
    parseUnsigned (natToDigits (f / 100) ++ '.' :: pad2 (f % 100))
      = some (mkRat f 100) := by
  obtain ⟨hval, hdig, hne⟩ := natToDigits_facts (f / 100)
  obtain ⟨hfdig, hfval⟩ := pad2_digits (f % 100) (by omega)
  obtain ⟨htw, hdw⟩ := takeWhile_all_append (natToDigits (f / 100))
    ('.' :: pad2 (f % 100)) hdig
    (fun c hc => by
      have hcc : c = '.' := by
        have hh : some '.' = some c := hc
        exact (Option.some.inj hh).symm
      rw [hcc]
      decide)
  obtain ⟨htw2, hdw2⟩ := takeWhile_all (pad2 (f % 100)) hfdig
  have hsf : splitFraction ('.' :: pad2 (f % 100)) = (pad2 (f % 100), []) := by
    simp only [splitFraction]
    rw [if_pos trivial, htw2, hdw2]
  have hipne : (natToDigits (f / 100)).isEmpty = false := by
    cases hcc : natToDigits (f / 100) with
    | nil => exact absurd hcc hne
    | cons x xs => rfl
  unfold parseUnsigned
  rw [htw, hdw, hsf]
  unfold parseAfterSplit
  simp only [parseExponent]
  rw [hipne]
  simp only [Bool.false_and, Bool.false_eq_true, if_false]
  unfold decValue
  have hexp : ¬ (0 : Int) ≤ 0 - ((pad2 (f % 100)).length : Int) := by
    have hl2 : ((pad2 (f % 100)).length : Int) = 2 := rfl
    rw [hl2]
    decide
  rw [if_neg hexp]
  have hdv : digitsVal (natToDigits (f / 100) ++ pad2 (f % 100)) = f := by
    rw [digitsVal_append, hval, hfval]
    have hl2 : (pad2 (f % 100)).length = 2 := rfl
    rw [hl2]
    have h100 : (10 : Nat) ^ 2 = 100 := rfl
    rw [h100]
    omega
  rw [hdv]
  rfl

/-- The rendered fee string parses back to the finite fee value: the
comparison the success handler performs is exact decimal equality with
the workshop fee. -/
theorem parse_feeToString (f : Nat) :
    parseDecString (feeToString f)
      = some (PyDecimal.finite (mkRat f 100)) := by
  obtain ⟨_, hdig, hne⟩ := natToDigits_facts (f / 100)
  obtain ⟨c0, cs, hcons⟩ := List.exists_cons_of_ne_nil hne
  have hc0 : isDigitChar c0 = true := by
    apply hdig
    rw [hcons]
    exact List.mem_cons_self c0 cs
  have hplus : ¬ c0 = '+' := by
    intro he
    rw [he] at hc0
    exact absurd hc0 (by decide)
  have hminus : ¬ c0 = '-' := by
    intro he
    rw [he] at hc0
    exact absurd hc0 (by decide)
  have htop : preprocessDecInput (feeToString f)
      = c0 :: (cs ++ '.' :: pad2 (f % 100)) := by
    rw [preprocess_feeToString f, hcons]
    rfl
  have hlist : c0 :: (cs ++ '.' :: pad2 (f % 100))
      = natToDigits (f / 100) ++ '.' :: pad2 (f % 100) := by
    rw [hcons]
    rfl
  simp only [parseDecString, htop, if_neg hplus, if_neg hminus]
  rw [hlist]
  simp only [parseBody, parseUnsigned_feeChars f]
  rfl

/-- C1 (amended): on a success callback for an existing payment, if
validation passes but the reported amount is not decimal-exactly
equal to the workshop fee, the outcome is the amount mismatch error
and the payment is set to `failed`; the registration is set to
`failed` when the workshop fee is nonzero, while for a zero-fee
workshop `Registration.save` reroutes the mirrored status to `free`
(see the counterexample).  Whenever the handler reports the completed
outcome, the reported amount parsed to exactly the workshop fee. -/
theorem c1_success_callback_amount_check (env : Env) (valOk : Bool)
    (db : DB) (tranId amountStr outS : String) (p : Payment)
    (r : Registration) (w : Workshop)
    (hp : findPayment db tranId = some p)
    (hr : findRegistration db p.registrationId = some r)
    (hw : findWorkshop db r.workshopId = some w) :
    (valOk = true →
      verify_payment_amount amountStr (feeToString w.fee100) = false →
      ((paymentSuccessHandler env valOk db tranId amountStr).2
          = CbOutcome.amountMismatch
        ∧ (findPayment (paymentSuccessHandler env valOk db tranId
            amountStr).1 tranId).map Payment.payment_status = some "failed"
        ∧ (w.fee100 ≠ 0 →
            (findRegistration (paymentSuccessHandler env valOk db tranId
              amountStr).1 p.registrationId).map Registration.payment_status
              = some "failed")
        ∧ (w.fee100 = 0 →
            (findRegistration (paymentSuccessHandler env valOk db tranId
              amountStr).1 p.registrationId).map Registration.payment_status
              = some "free")))
    ∧ ((paymentSuccessHandler env valOk db tranId amountStr).2
          = CbOutcome.successConfirmed outS →
        parseDecString amountStr
          = some (PyDecimal.finite (mkRat w.fee100 100))) := by
  constructor
  · rintro rfl hv
    simp only [paymentSuccessHandler, hp, hr, hw, if_true, hv,
      Bool.false_eq_true, if_false, markFailed]
    obtain ⟨h1, h2⟩ := finds_after_both db tranId p.registrationId p
      { p with payment_status := "failed" } r
      (registrationSave w env.dateStr env.uid
        { r with payment_status := "failed" }) hp hr rfl
      (by rw [registrationSave_id])
    refine ⟨by trivial, ?_, ?_, ?_⟩
    · rw [h1]
      rfl
    · intro hfee
      rw [h2]
      have hs := registrationSave_status w env.dateStr env.uid
        { r with payment_status := "failed" } hfee
      simp [hs]
    · intro h0
      rw [h2]
      have hs := registrationSave_status_free w env.dateStr env.uid
        { r with payment_status := "failed" } h0
      simp [hs]
  · intro hout
    cases valOk with
    | false =>
      simp only [paymentSuccessHandler, hp, hr, hw, Bool.false_eq_true,
        if_false] at hout
      exact absurd hout (by simp)
    | true =>
      cases hv : verify_payment_amount amountStr (feeToString w.fee100) with
      | false =>
        simp only [paymentSuccessHandler, hp, hr, hw, if_true, hv,
          Bool.false_eq_true, if_false] at hout
        exact absurd hout (by simp)
      | true =>
        unfold verify_payment_amount at hv
        cases h1 : parseDecString amountStr with
        | none =>
          simp only [h1] at hv
          exact absurd hv (by simp)
        | some a =>
          cases h2 : parseDecString (feeToString w.fee100) with
          | none =>
            simp only [h1, h2] at hv
            exact absurd hv (by simp)
          | some b =>
            simp only [h1, h2] at hv
            have hb := parse_feeToString w.fee100
            rw [h2] at hb
            rw [Option.some.inj hb] at hv
            cases a with
            | finite q =>
              have hq : q = mkRat w.fee100 100 := by
                simpa [pyDecEq] using hv
              rw [hq]
            | infinity s => simp [pyDecEq] at hv
            | nan s => simp [pyDecEq] at hv

theorem c1_counterexample_zero_fee_reroute :
    (paymentSuccessHandler envEx true dbZero "T2" "150.00").2
      = CbOutcome.amountMismatch
    ∧ (findPayment (paymentSuccessHandler envEx true dbZero "T2"
        "150.00").1 "T2").map Payment.payment_status = some "failed"
    ∧ (findRegistration (paymentSuccessHandler envEx true dbZero "T2"
        "150.00").1 6).map Registration.payment_status = some "free" := by
  decide

theorem c1_witness :
    findPayment dbEx "T1" = some pEx
    ∧ ((true = true →
        verify_payment_amount "150.00" (feeToString wEx.fee100) = false →
        ((paymentSuccessHandler envEx true dbEx "T1" "150.00").2
            = CbOutcome.amountMismatch
          ∧ (findPayment (paymentSuccessHandler envEx true dbEx "T1"
              "150.00").1 "T1").map Payment.payment_status = some "failed"
          ∧ (wEx.fee100 ≠ 0 →
              (findRegistration (paymentSuccessHandler envEx true dbEx "T1"
                "150.00").1 pEx.registrationId).map
                Registration.payment_status = some "failed")
          ∧ (wEx.fee100 = 0 →
              (findRegistration (paymentSuccessHandler envEx true dbEx "T1"
                "150.00").1 pEx.registrationId).map
                Registration.payment_status = some "free")))
      ∧ ((paymentSuccessHandler envEx true dbEx "T1" "150.00").2
            = CbOutcome.successConfirmed "REG-20251010-AAAAA" →
          parseDecString "150.00"
            = some (PyDecimal.finite (mkRat wEx.fee100 100)))) :=
  ⟨by decide,
   c1_success_callback_amount_check envEx true dbEx "T1" "150.00"
     "REG-20251010-AAAAA" pEx rEx wEx (by decide) (by decide) (by decide)⟩

/-- C6 (amended): `current_registrations` counts the registrations of
the workshop whose status is `completed`, or `free` only when the
workshop fee is zero (for a zero-fee workshop this coincides with the
set `{completed, free}` of the original claim; for a paid workshop a
`free`-status registration is not counted, see the counterexample);
`available_slots` is `max 0 (capacity - current_registrations)`, which
as a natural number is the truncated difference. -/
theorem c6_current_registrations_counting (db : DB) (w : Workshop) :
    currentRegistrations db w
      = (db.registrations.filter (fun r => r.workshopId == w.id)).countP
          (fun r => r.payment_status == "completed"
            || (r.payment_status == "free" && w.fee100 == 0))
    ∧ (w.fee100 = 0 →
        currentRegistrations db w = currentRegistrationsSpec db w)
    ∧ availableSlots db w
      = max 0 ((w.capacity : Int) - (currentRegistrations db w : Int))
    ∧ (availableSlots db w).toNat
      = w.capacity - currentRegistrations db w := by
  refine ⟨?_, ?_, rfl, ?_⟩
  · unfold currentRegistrations
    rw [List.countP_filter, ← List.countP_eq_length_filter]
    simp only [Bool.and_comm]
  · intro h0
    unfold currentRegistrations currentRegistrationsSpec
    have hcong : ∀ r ∈ db.registrations,
        (r.workshopId == w.id && (r.payment_status == "completed"
          || (r.payment_status == "free" && w.fee100 == 0)))
        = (r.workshopId == w.id && (r.payment_status == "completed"
          || r.payment_status == "free")) := by
      intro r _
      rw [h0]
      simp
    rw [List.filter_congr hcong]
  · unfold availableSlots
    rcases le_total ((w.capacity : Int) - (currentRegistrations db w : Int))
        0 with hle | hle
    · rw [max_eq_left hle]
      omega
    · rw [max_eq_right hle]
      omega

/-- A generated registration number, built from any calendar date and
any uuid draw, matches `REG-\d{8}-[0-9A-F]{5}`. -/
theorem regNumberFormat_ok (y m d n : Nat) (hy : y < 10000)
    (hm : m < 100) (hd : d < 100) :
    matchesRegNumberFormat
      ("REG-" ++ formatDateYMD y m d ++ "-" ++ uuidHex5 n) = true := by
  have hlist : ("REG-" ++ formatDateYMD y m d ++ "-" ++ uuidHex5 n).toList
      = ['R', 'E', 'G', '-', decChar (y / 1000), decChar (y / 100 % 10),
         decChar (y / 10 % 10), decChar (y % 10), decChar (m / 10),
         decChar (m % 10), decChar (d / 10), decChar (d % 10), '-',
         hexChar (n / 65536 % 16), hexChar (n / 4096 % 16),
         hexChar (n / 256 % 16), hexChar (n / 16 % 16),
         hexChar (n % 16)] := by
    show ("REG-" ++ formatDateYMD y m d ++ "-" ++ uuidHex5 n).data = _
    rw [String.data_append, String.data_append, String.data_append]
    rfl
  have e1 : isDigitChar (decChar (y / 1000)) = true :=
    (decChar_facts (by omega)).1
  have e2 : isDigitChar (decChar (y / 100 % 10)) = true :=
    (decChar_facts (by omega)).1
  have e3 : isDigitChar (decChar (y / 10 % 10)) = true :=
    (decChar_facts (by omega)).1
  have e4 : isDigitChar (decChar (y % 10)) = true :=
    (decChar_facts (by omega)).1
  have e5 : isDigitChar (decChar (m / 10)) = true :=
    (decChar_facts (by omega)).1
  have e6 : isDigitChar (decChar (m % 10)) = true :=
    (decChar_facts (by omega)).1
  have e7 : isDigitChar (decChar (d / 10)) = true :=
    (decChar_facts (by omega)).1
  have e8 : isDigitChar (decChar (d % 10)) = true :=
    (decChar_facts (by omega)).1
  have f1 : isHexUpperChar (hexChar (n / 65536 % 16)) = true :=
    hexChar_isHex (by omega)
  have f2 : isHexUpperChar (hexChar (n / 4096 % 16)) = true :=
    hexChar_isHex (by omega)
  have f3 : isHexUpperChar (hexChar (n / 256 % 16)) = true :=
    hexChar_isHex (by omega)
  have f4 : isHexUpperChar (hexChar (n / 16 % 16)) = true :=
    hexChar_isHex (by omega)
  have f5 : isHexUpperChar (hexChar (n % 16)) = true :=
    hexChar_isHex (by omega)
  simp only [matchesRegNumberFormat, hlist]
  simp [e1, e2, e3, e4, e5, e6, e7, e8, f1, f2, f3, f4, f5]

/-- C5: the registration number generated at first save matches
`REG-\d{8}-[0-9A-F]{5}`; the storage-level unique constraint keeps
registration numbers pairwise distinct across the store; and saving a
registration that already carries a number leaves it unchanged. -/
theorem c5_registration_number_format_unique_immutable (env : Env)
    (db db2 : DB) (w : Workshop) (r r2 : Registration) (y m d n : Nat)
    (hy : y < 10000) (hm : m < 100) (hd : d < 100)
    (hdate : env.dateStr = formatDateYMD y m d)
    (huid : env.uid = uuidHex5 n)
    (hnum : r.registration_number = "")
    (hnum2 : r2.registration_number ≠ "")
    (hdistinct : db.registrations.Pairwise
      (fun a b => a.registration_number ≠ b.registration_number))
    (hins : insertRegistration env db w r = some db2) :
    matchesRegNumberFormat
        (registrationSave w env.dateStr env.uid r).registration_number
      = true
    ∧ db2.registrations.Pairwise
        (fun a b => a.registration_number ≠ b.registration_number)
    ∧ (registrationSave w env.dateStr env.uid r2).registration_number
      = r2.registration_number := by
  refine ⟨?_, ?_,
    registrationSave_number_kept w env.dateStr env.uid r2 hnum2⟩
  · rw [registrationSave_number_new w env.dateStr env.uid r hnum, hdate,
      huid]
    exact regNumberFormat_ok y m d n hy hm hd
  · simp only [insertRegistration] at hins
    by_cases hany : (db.registrations.any (fun q =>
        q.registration_number == Registration.registration_number
          (registrationSave w env.dateStr env.uid r))) = true
    · rw [if_pos hany] at hins
      exact absurd hins (by simp)
    · rw [if_neg hany] at hins
      by_cases hany2 : (db.registrations.any (fun q =>
          q.email == (registrationSave w env.dateStr env.uid r).email
            && q.workshopId
              == (registrationSave w env.dateStr env.uid r).workshopId))
          = true
      · rw [if_pos hany2] at hins
        exact absurd hins (by simp)
      · rw [if_neg hany2] at hins
        have hdb2 := Option.some.inj hins
        rw [← hdb2]
        show (db.registrations
          ++ [registrationSave w env.dateStr env.uid r]).Pairwise _
        rw [List.pairwise_append]
        refine ⟨hdistinct, List.pairwise_singleton _ _, ?_⟩
        intro a ha b hb
        rw [List.mem_singleton] at hb
        rw [hb]
        intro hcon
        apply hany
        rw [List.any_eq_true]
        exact ⟨a, ha, beq_iff_eq.mpr hcon⟩

theorem c5_witness :
    insertRegistration envEx dbEmpty wEx rNew = some dbPendIns
    ∧ (matchesRegNumberFormat (Registration.registration_number
          (registrationSave wEx envEx.dateStr envEx.uid rNew)) = true
      ∧ dbPendIns.registrations.Pairwise
          (fun a b => a.registration_number ≠ b.registration_number)
      ∧ Registration.registration_number
          (registrationSave wEx envEx.dateStr envEx.uid rEx)
          = rEx.registration_number) :=
  ⟨by decide,
   c5_registration_number_format_unique_immutable envEx dbEmpty dbPendIns
     wEx rNew rEx 2025 10 12 768955 (by decide) (by decide) (by decide)
     (by decide) (by decide) (by decide) (by decide) List.Pairwise.nil
     (by decide)⟩

end TSCWorkshop
